import Mathlib

/-!
Verification development for the Africa Gold Intelligence daily-briefing
pipeline (`orchestrator.py` and the agents it coordinates).

Shallow embedding conventions:
  * Python floats are rationals (`ℚ`); every comparison in the source is
    against an exactly representable constant, so no behaviour changes.
  * Python datetimes are rational day counts; `timedelta.days` becomes an
    integer floor of the day difference.
  * Dictionaries with optional keys become structures with `Option` fields;
    `d.get(k, default)` becomes `Option.getD`.
  * JSONL log files become lists of lines, each either a parsed record or a
    corrupt line on which `json.loads` raises.
  * The orchestrator's straight-line control flow (from the data-quality
    check onward, after the market snapshot has been fetched and assuming
    content synthesis does not raise) becomes a pure function from an
    environment of external-call outcomes to the run's observable outcome.
-/

/-- Python `s.startswith(p)`: the first `len(p)` characters of `s` equal `p`. -/
def pyStartswith (s p : String) : Bool :=
  s.toList.take p.toList.length == p.toList

/-- Python `round` applied to an exactly representable value:
round half to even (banker's rounding). -/
def pyRound (q : ℚ) : ℤ :=
  let f := ⌊q⌋
  let frac := q - f
  if frac < 1/2 then f
  else if 1/2 < frac then f + 1
  else if f % 2 = 0 then f else f + 1

/-- Python `x or default` on an optional string: `None` and `""` are falsy. -/
def pyOrStr (s : Option String) (d : String) : String :=
  match s with
  | some v => if v = "" then d else v
  | none => d

/-- Python `(now - ts).days` with datetimes as rational day counts:
`timedelta.days` floors towards minus infinity. -/
def pyDays (now ts : ℚ) : ℤ := ⌊now - ts⌋

/-- Python `s.strip()`: drop leading and trailing whitespace. -/
def pyStrip (s : String) : String :=
  String.mk (((s.toList.dropWhile Char.isWhitespace).reverse.dropWhile
    Char.isWhitespace).reverse)

/-- the `data["gold"]` quote dict produced by `fetch_yfinance`; each key may
be absent, and the readers apply their own defaults (`orchestrator.py`,
`monetization_agent.py`). -/
structure GoldQuote where
  price : Option ℚ
  day_chg_pct : Option ℚ
  rsi : Option ℚ
deriving DecidableEq

/-- the market-intelligence `data` dict assembled by Agent 1
(`orchestrator.py` lines 504-509): the gold quote, the African FX-rate dict
and the fetched news headlines.  An FX rate that is present but `0` is falsy
in Python, exactly like a missing one. -/
structure MarketData where
  gold : GoldQuote
  fx_rates : List (String × ℚ)
  news : List String
deriving DecidableEq

/-- truthiness of `fx.get(c)` in `check_data_quality`: the rate must be
present and non-zero. -/
def fxTruthy (fx : List (String × ℚ)) (c : String) : Bool :=
  match fx.lookup c with
  | some r => r != 0
  | none => false

/-- `check_data_quality` (`orchestrator.py` lines 139-178): price sanity
band, daily-swing check, missing-FX check, empty-news check.  Numeric
interpolations of the f-strings are rendered with `toString`; only the
`CRITICAL`/`WARNING` prefixes matter downstream. -/
def check_data_quality (data : MarketData) : List String :=
  let price := data.gold.price.getD 0
  let w₁ : List String :=
    if ¬(800 ≤ price ∧ price ≤ 15000) then
      ["CRITICAL" ++ (": Gold price $" ++ toString price ++
        " is outside expected range ($800–$15,000). " ++
        "Possible stale or corrupted data. Halting pipeline.")]
    else []
  let pct := |data.gold.day_chg_pct.getD 0|
  let w₂ : List String :=
    if 10 < pct then
      ["WARNING: Daily gold move of " ++ (toString pct ++
        "% is unusually large (>10%). " ++
        "Verify market conditions before publishing.")]
    else []
  let missing := ["ZAR", "GHS", "NGN", "KES"].filter
    (fun c => !fxTruthy data.fx_rates c)
  let w₃ : List String :=
    if missing ≠ [] then
      ["WARNING: FX rates missing for " ++ (String.intercalate ", " missing ++
        ". Fallback rates used in karat pricing table.")]
    else []
  let w₄ : List String :=
    if data.news = [] then
      ["WARNING: No news headlines fetched. RSS feeds may be temporarily down."]
    else []
  w₁ ++ w₂ ++ w₃ ++ w₄

/-- one parsed record of `run_log.jsonl` as written by `log_run`
(`orchestrator.py` lines 108-112); every reader accesses fields through
`rec.get(...)`, so each field is optional except the timestamp, which
`log_run` always writes. -/
structure RunRecord where
  ts : ℚ
  status : Option String
  post_type : Option String
  gold_price : Option ℚ
  elapsed_s : Option ℚ
  upsell_strategy : Option String
deriving DecidableEq

/-- one physical line of `run_log.jsonl`: either it parses to a record or
`json.loads` raises on it (blank lines behave like corrupt ones for every
reader below). -/
inductive RunLine where
  | ok (r : RunRecord)
  | corrupt (raw : String)
deriving DecidableEq

/-- `analytics_agent.read_log` (lines 74-94) restricted to the run log: keep
the records of the last `days` days, skipping any line whose parse fails and
continuing with the rest. -/
def read_log (lines : List RunLine) (now days : ℚ) : List RunRecord :=
  let cutoff := now - days
  lines.filterMap fun l =>
    match l with
    | .ok r => if cutoff ≤ r.ts then some r else none
    | .corrupt _ => none

/-- the backward scan of `monetization_agent._get_success_streak`
(lines 126-141): the whole loop runs inside one `try`, so the first line
whose parse fails aborts the scan and the `except` returns `0`. -/
def streakScan : List RunLine → ℕ → ℕ
  | [], streak => streak
  | .corrupt _ :: _, _ => 0
  | .ok r :: rest, streak =>
      if r.status == some "SUCCESS" then streakScan rest (streak + 1)
      else streak

/-- `monetization_agent._get_success_streak`: scan the run log from the
newest line backward, counting consecutive `SUCCESS` records (a missing or
empty log yields `0`). -/
def get_success_streak (lines : List RunLine) : ℕ :=
  streakScan lines.reverse 0

/-- the streak loop of `analytics_agent.pipeline_metrics` (lines 120-126),
which runs over already-parsed records returned by `read_log`. -/
def pipelineStreakGo : List RunRecord → ℕ → ℕ
  | [], streak => streak
  | r :: rest, streak =>
      if r.status == some "SUCCESS" then pipelineStreakGo rest (streak + 1)
      else streak

/-- the consecutive-success streak of `analytics_agent.pipeline_metrics`:
iterate the parsed records newest-first and stop at the first
non-`SUCCESS`. -/
def pipelineStreak (runs : List RunRecord) : ℕ :=
  pipelineStreakGo runs.reverse 0

/-- the status icon of `print_recent_logs` (`orchestrator.py` line 130). -/
def statusIcon (status : String) : String :=
  if status = "SUCCESS" then "✅"
  else if status = "DRY_RUN" then "🔬" else "❌"

/-- the body of the `print_recent_logs` loop (`orchestrator.py` lines
122-133): a parsed line prints a formatted summary, a line whose parse
fails prints the raw text, and the loop continues either way. -/
def formatRunLine (l : RunLine) : String :=
  match l with
  | .ok r =>
      "  " ++ statusIcon (r.status.getD "?") ++ " " ++ toString r.ts ++ "  " ++
      r.status.getD "?" ++ "  " ++ r.post_type.getD "?" ++ "  $" ++
      (match r.gold_price with | some p => toString p | none => "?") ++ "  " ++
      (match r.elapsed_s with | some e => toString e | none => "?") ++ "s"
  | .corrupt raw => "  " ++ raw

/-- `print_recent_logs` output lines: Python `lines[-n:]` keeps the last
`n` lines (all of them when `n = 0`), and each line is rendered by the loop
body. -/
def print_recent_logs (lines : List RunLine) (n : ℕ) : List String :=
  let recent := if n = 0 then lines else lines.drop (lines.length - n)
  recent.map formatRunLine

/-- `monetization_agent.HARD_UPSELL_COOLDOWN_DAYS`. -/
def HARD_UPSELL_COOLDOWN_DAYS : ℤ := 3

/-- `monetization_agent.PROMO_COOLDOWN_DAYS`. -/
def PROMO_COOLDOWN_DAYS : ℤ := 14

/-- the `POST_TYPE_SCORES` dict lookup `POST_TYPE_SCORES.get(post_type, 60)`
of `monetization_agent.py` (lines 53-61, 97), written as the equivalent
if-chain over the seven keys with the `.get` default `60`. -/
def postTypeBase (post_type : String) : ℤ :=
  if post_type = "trader_intelligence" then 95
  else if post_type = "macro_outlook" then 90
  else if post_type = "africa_regional" then 80
  else if post_type = "week_review" then 85
  else if post_type = "karat_pricing" then 70
  else if post_type = "aggregator" then 65
  else if post_type = "educational" then 60
  else 60

/-- volatility component of `score_opportunity` (lines 76-83). -/
def volatilityScore (pct : ℚ) : ℤ :=
  if 3 ≤ pct then 30
  else if 2 ≤ pct then 22
  else if 1 ≤ pct then 14
  else 5

/-- oscillator-extreme component of `score_opportunity` (lines 86-94):
a missing oscillator value contributes zero. -/
def rsiExtremeScore (rsi : Option ℚ) : ℤ :=
  match rsi with
  | some r =>
      if 75 ≤ r ∨ r ≤ 25 then 20
      else if 65 ≤ r ∨ r ≤ 35 then 12
      else 4
  | none => 0

/-- editorial-type component of `score_opportunity` (lines 96-98):
`round(base * 0.25)`. -/
def postTypeScore (post_type : String) : ℤ :=
  pyRound ((postTypeBase post_type : ℚ) * 0.25)

/-- price-level component of `score_opportunity` (lines 100-110). -/
def athProximityScore (price : ℚ) : ℤ :=
  if 5000 ≤ price then 20
  else if 3500 ≤ price then 14
  else if 2500 ≤ price then 8
  else 3

/-- streak bonus of `score_opportunity` (lines 112-119). -/
def streakBonusScore (streak : ℕ) : ℤ :=
  if 7 ≤ streak then 5
  else if 3 ≤ streak then 3
  else 0

/-- the breakdown dict returned by `score_opportunity`. -/
structure ScoreBreakdown where
  volatility : ℤ
  rsi_extreme : ℤ
  post_type : ℤ
  ath_proximity : ℤ
  streak_bonus : ℤ
  total : ℤ
deriving DecidableEq

/-- `monetization_agent.score_opportunity` (lines 63-123).  The source reads
the run log through the module-level `RUN_LOG` path inside
`_get_success_streak`; here the log contents are an explicit argument.  The
unused `today` parameter of the source is omitted.  This is the
non-raising fragment over `GoldQuote`, whose `Option` price ranges over
numeric-or-absent values only; the exact dict model, including the
`TypeError` raised when the `price` key is present as `None`, is
`score_opportunityP` below, which agrees with this function on every
non-`None` price (`score_opportunityP_eq_ok`). -/
def score_opportunity (data : MarketData) (post_type : String)
    (runLog : List RunLine) : ScoreBreakdown :=
  let price := data.gold.price.getD 0
  let pct := |data.gold.day_chg_pct.getD 0|
  let v := volatilityScore pct
  let r := rsiExtremeScore data.gold.rsi
  let p := postTypeScore post_type
  let a := athProximityScore price
  let s := streakBonusScore (get_success_streak runLog)
  { volatility := v, rsi_extreme := r, post_type := p, ath_proximity := a,
    streak_bonus := s, total := min 100 (v + r + p + a + s) }

/-- one field of a Python dict, distinguishing an absent key, a key present
as `None`, and a numeric value: `d.get(k, default)` returns the default
only for an absent key, while a present `None` flows through. -/
inductive PyField where
  | absent
  | null
  | num (q : ℚ)
deriving DecidableEq

/-- the `data["gold"]` dict with key presence tracked exactly, for the
readers whose behaviour differs between an absent key and a `None`
value. -/
structure GoldDict where
  price : PyField
  day_chg_pct : PyField
  rsi : PyField
deriving DecidableEq

/-- Python `gold.get(k, 0)`: `0` for an absent key, `None` (here `none`)
for a key present as `None`, the number otherwise. -/
def pyGetD0 : PyField → Option ℚ
  | .absent => some 0
  | .null => none
  | .num q => some q

/-- Python `gold.get(k)`: `None` for an absent key or a `None` value. -/
def pyGet : PyField → Option ℚ
  | .absent => none
  | .null => none
  | .num q => some q

/-- Python `x or 0` on a possibly-`None` number: `None` and `0` are falsy,
so both map to `0`. -/
def pyOrZero : Option ℚ → ℚ
  | none => 0
  | some q => q

/-- `score_opportunity` over the exact dict model: `price` is first used in
the comparison `price >= 5000` of the ath-proximity block
(`monetization_agent.py` line 103), so a `price` key present as `None`
raises `TypeError` there and the call returns no breakdown; `None` in
`day_chg_pct` is coerced by `or 0` (line 70) and `None` in `rsi` is handled
explicitly (line 86). -/
def score_opportunityP (gold : GoldDict) (post_type : String)
    (runLog : List RunLine) : Except String ScoreBreakdown :=
  let pct := |pyOrZero (pyGetD0 gold.day_chg_pct)|
  let v := volatilityScore pct
  let r := rsiExtremeScore (pyGet gold.rsi)
  let p := postTypeScore post_type
  match pyGetD0 gold.price with
  | none =>
      Except.error "TypeError: unsupported comparison between NoneType and int"
  | some price =>
      let a := athProximityScore price
      let s := streakBonusScore (get_success_streak runLog)
      Except.ok
        { volatility := v, rsi_extreme := r, post_type := p,
          ath_proximity := a, streak_bonus := s,
          total := min 100 (v + r + p + a + s) }

/-- one parsed record of `monetization_log.jsonl`, with the two fields that
`_days_since_last_upsell` reads (`ts` and `upsell_type`). -/
structure MonetRecord where
  ts : ℚ
  upsell_type : String
deriving DecidableEq

/-- `monetization_agent._days_since_last_upsell` (lines 144-157): scan the
monetization log backward for the most recent record whose `upsell_type`
matches, returning the floored day difference, or `9999` when no record
matches (or the log is missing/empty). -/
def days_since_last_upsell (upsell_type : String) (log : List MonetRecord)
    (now : ℚ) : ℤ :=
  match log.reverse.find? (fun r => r.upsell_type == upsell_type) with
  | some r => pyDays now r.ts
  | none => 9999

/-- `monetization_agent.select_strategy` (lines 162-186): the priority
ladder gated by the two cooldowns, both computed from the monetization log.
The `post_type` and `data` parameters are unused in the source body too. -/
def select_strategy (score : ℤ) (post_type : String) (data : MarketData)
    (log : List MonetRecord) (now : ℚ) : String :=
  let days_since_hard := days_since_last_upsell "hard" log now
  let days_since_promo := days_since_last_upsell "promo" log now
  if 80 ≤ score ∧ PROMO_COOLDOWN_DAYS ≤ days_since_promo then "promo"
  else if 65 ≤ score ∧ HARD_UPSELL_COOLDOWN_DAYS ≤ days_since_hard then
    "hard_upsell"
  else if 45 ≤ score then "soft_upsell"
  else if 25 ≤ score then "value_reminder"
  else "none"

/-- the `upsell_type` field written by `monetization_agent.log_monetization`
(line 369): the strategy itself for `hard_upsell` and `promo`, and `soft`
for everything else. -/
def logMonetizationUpsellType (strategy : String) : String :=
  if strategy = "hard_upsell" ∨ strategy = "promo" then strategy else "soft"

/-- the monetization-log record appended by `log_monetization`
(lines 361-376), restricted to the fields `_days_since_last_upsell`
reads. -/
def logMonetizationRecord (ts : ℚ) (strategy : String) : MonetRecord :=
  { ts := ts, upsell_type := logMonetizationUpsellType strategy }

/-- the `result.get("data", {})` payload of a successful
`beehiiv_create_post` call (`orchestrator.py` lines 716-725): the `id` and
`web_url` keys may be absent and are read with `.get` defaults. -/
structure ApiPost where
  id : Option String
  web_url : Option String
deriving DecidableEq

/-- the dict returned by a successful `beehiiv_browser.publish_post` call
(`orchestrator.py` lines 743-753). -/
structure BrowserPost where
  post_id : Option String
  post_url : Option String
deriving DecidableEq

/-- the outcome of the browser-automation attempt: the import of
`beehiiv_browser` fails (so `publish_post` is never called), the
`publish_post` call raises, or it returns a result dict. -/
inductive BrowserTry where
  | importError
  | publishError
  | ok (post : BrowserPost)
deriving DecidableEq

/-- the environment of one orchestrator run, fixing the externally
determined outcomes the control flow branches on: the fetched market data,
the CLI/env flags, the SEO slug, and the result of each distribution and
notification attempt. -/
structure Env where
  data : MarketData
  dryRun : Bool
  autoPublish : Bool
  slug : Option String
  apiKeySet : Bool
  apiResult : Option ApiPost
  browserResult : BrowserTry
  notifyPasswordSet : Bool
  smtpOk : Bool
deriving DecidableEq

/-- `_send_email` (`orchestrator.py` lines 183-207): returns `False` when
`NOTIFY_PASSWORD` is empty or the SMTP session fails, `True` otherwise. -/
def send_email (env : Env) : Bool := env.notifyPasswordSet && env.smtpOk

/-- a record appended to `run_log.jsonl` by one of the `log_run` calls in
`main`, keeping the fields the claims are about.  `failed` is written by the
fetch/synthesis failure handlers, which lie outside the modelled fragment
(it is never produced below but completes the status enum). -/
inductive LoggedRecord where
  | halted (gold_price : ℚ) (warnings : List String)
  | failed (stage : String)
  | dryRunRec (gold_price : ℚ) (warnings : List String)
  | success (post_id : String) (post_url : String) (beehiiv_used : Bool)
      (publish_type : String) (warnings : List String)
deriving DecidableEq

/-- the `status` string written for each record shape. -/
def LoggedRecord.statusOf : LoggedRecord → String
  | .halted _ _ => "HALTED"
  | .failed _ => "FAILED"
  | .dryRunRec _ _ => "DRY_RUN"
  | .success _ _ _ _ _ => "SUCCESS"

/-- `PUBLISH_TYPE` (`orchestrator.py` line 93). -/
def publishTypeOf (autoPublish : Bool) : String :=
  if autoPublish then "instant" else "draft"

/-- `SITE_URL` of `social_agent.py` (line 33). -/
def SITE_URL : String := "https://www.africagoldintelligence.com"

/-- `NEWSLETTER_URL` of `social_agent.py` (line 34), the known-good
homepage. -/
def NEWSLETTER_URL : String := "https://www.africagoldintelligence.com"

/-- `resolved_url` in `social_agent.run` (line 417):
`post_url.strip() if post_url and post_url.strip() else None`. -/
def resolvedUrlOf (post_url : String) : Option String :=
  if post_url ≠ "" ∧ pyStrip post_url ≠ "" then some (pyStrip post_url)
  else none

/-- `_slug` in `social_agent.run` (line 419): the slug is suppressed when no
live URL was resolved. -/
def socialSlug (slug : Option String) (resolved : Option String) :
    Option String :=
  if resolved.isSome then slug else none

/-- the link-choice chain shared by `build_twitter_post`,
`build_linkedin_post` and `build_whatsapp_message` (`social_agent.py` lines
160-165, 191-196, 287-292): real post URL, else slug URL, else homepage. -/
def buildLink (slug : Option String) (resolved : Option String) : String :=
  match resolved with
  | some u => u
  | none =>
      match slug with
      | some s => SITE_URL ++ "/p/" ++ s
      | none => NEWSLETTER_URL

/-- the link every social builder receives on a `social_agent.run` call with
the given orchestrator `post_url` and SEO slug. -/
def socialRunLink (post_url : String) (slug : Option String) : String :=
  let resolved := resolvedUrlOf post_url
  buildLink (socialSlug slug resolved) resolved

/-- the observable outcome of one orchestrator run over the modelled
fragment of `main`: the run-log records written, whether content synthesis
ran, which distribution channels were invoked, the authoritative post
locator, the link handed to the social builders, whether the oversight-gate
email went out, and the process exit code. -/
structure Outcome where
  warnings : List String
  records : List LoggedRecord
  contentBuilt : Bool
  apiInvoked : Bool
  browserInvoked : Bool
  beehiivOk : Bool
  post_id : Option String
  post_url : String
  socialLink : String
  oversightEmailed : Bool
  exitCode : ℕ
deriving DecidableEq

/-- the control flow of `orchestrator.main` from the data-quality check
(line 519) to the final `log_run` (line 886), with the market snapshot
already fetched and content synthesis assumed not to raise.  The enrichment
agents (1.5, 1.6, LinkedIn, partnership, analytics) are non-fatal and touch
nothing the claims mention, so they are elided. -/
def pipeline (env : Env) : Outcome :=
  let warnings := check_data_quality env.data
  let criticals := warnings.filter (fun w => pyStartswith w "CRITICAL")
  let g_price := env.data.gold.price.getD 0
  if criticals ≠ [] then
    { warnings := warnings, records := [.halted g_price warnings],
      contentBuilt := false, apiInvoked := false, browserInvoked := false,
      beehiivOk := false, post_id := none, post_url := "", socialLink := "",
      oversightEmailed := false, exitCode := 1 }
  else if env.dryRun then
    { warnings := warnings, records := [.dryRunRec g_price warnings],
      contentBuilt := true, apiInvoked := false, browserInvoked := false,
      beehiivOk := false, post_id := none, post_url := "", socialLink := "",
      oversightEmailed := false, exitCode := 0 }
  else
    let apiInvoked := env.apiKeySet
    let afterApi : Option (String × String) :=
      if env.apiKeySet then
        match env.apiResult with
        | some r => some (r.id.getD "unknown", r.web_url.getD "")
        | none => none
      else none
    let browserInvoked :=
      afterApi.isNone && (env.browserResult != BrowserTry.importError)
    let result : Option (String × String) :=
      match afterApi with
      | some pr => some pr
      | none =>
          match env.browserResult with
          | .importError => none
          | .publishError => none
          | .ok br => some (br.post_id.getD "browser-post", br.post_url.getD "")
    let beehiivOk := result.isSome
    let post_id : Option String := result.map Prod.fst
    let post_url : String := (result.map Prod.snd).getD ""
    let socialLink := socialRunLink post_url env.slug
    let emailed := send_email env
    { warnings := warnings,
      records := [.success (pyOrStr post_id "email-delivery") post_url
        beehiivOk
        (if beehiivOk then publishTypeOf env.autoPublish else "email-fallback")
        warnings],
      contentBuilt := true, apiInvoked := apiInvoked,
      browserInvoked := browserInvoked, beehiivOk := beehiivOk,
      post_id := post_id, post_url := post_url, socialLink := socialLink,
      oversightEmailed := emailed, exitCode := 0 }

/-- Python `s[:n]` for an `int` bound: a negative bound counts from the end
and clamps at zero. -/
def pyTake (s : String) (n : ℤ) : String :=
  if 0 ≤ n then String.mk (s.toList.take n.toNat)
  else String.mk (s.toList.take (s.toList.length - (-n).toNat))

/-- Python `s.rsplit(" ", 1)[0]`: everything before the last space, or the
whole string when it has no space. -/
def pyRsplitSpaceHead (s : String) : String :=
  if s.toList.contains ' ' then
    String.mk (((s.toList.reverse.dropWhile (fun c => c ≠ ' ')).drop 1).reverse)
  else s

/-- the `POST_TYPE_HASHTAGS` dict of `social_agent.py` (lines 49-57). -/
def POST_TYPE_HASHTAGS : List (String × List String) :=
  [("trader_intelligence",
      ["#Trading", "#GoldTrading", "#XAUUSD", "#TechnicalAnalysis"]),
   ("africa_regional", ["#AfricaGold", "#AfricanMarkets", "#GoldInvesting"]),
   ("aggregator", ["#GoldNews", "#MarketUpdate", "#Investing"]),
   ("karat_pricing",
      ["#GoldPrice", "#GoldJewellery", "#KaratGold", "#GoldPerGram"]),
   ("macro_outlook", ["#Macro", "#GoldOutlook", "#Inflation", "#DXY"]),
   ("educational",
      ["#InvestingAfrica", "#GoldInvesting", "#PersonalFinance"]),
   ("week_review", ["#WeeklyReview", "#GoldMarket", "#MarketSummary"])]

/-- the `COUNTRY_HASHTAGS` dict of `social_agent.py` (lines 59-66). -/
def COUNTRY_HASHTAGS : List (String × String) :=
  [("ZAR", "#SouthAfrica"), ("GHS", "#Ghana"), ("NGN", "#Nigeria"),
   ("KES", "#Kenya"), ("EGP", "#Egypt"), ("MAD", "#Morocco")]

/-- the hashtag line of `build_twitter_post` (lines 153-157): two post-type
tags, at most one country tag drawn from the first two FX currencies, and
the brand tag. -/
def twitterHashtags (post_type : String) (fx : List (String × ℚ)) : String :=
  let type_tags := ((POST_TYPE_HASHTAGS.lookup post_type).getD []).take 2
  let country_tags := ((fx.map Prod.fst).take 2).filterMap
    (fun c => COUNTRY_HASHTAGS.lookup c)
  String.intercalate " " (type_tags ++ country_tags.take 1 ++
    ["#AfricaGoldIntelligence"])

/-- `build_twitter_post` (lines 148-176) given the already-chosen link.
The hook text from `_pick_hook` is a parameter here: it is assembled from
float-formatted templates whose content never affects the link, which is
what the claims are about.  The 280-character trim shortens the hook but
keeps the link and hashtags verbatim. -/
def build_twitter_post (hook : String) (post_type : String)
    (fx : List (String × ℚ)) (link : String) : String :=
  let hashtags := twitterHashtags post_type fx
  let post := hook ++ "\n\n" ++ link ++ "\n\n" ++ hashtags
  if 280 < post.length then
    let available : ℤ :=
      280 - (("\n\n" ++ link ++ "\n\n" ++ hashtags).length : ℤ)
    let hook2 := pyRsplitSpaceHead (pyTake hook (available - 3)) ++ "..."
    hook2 ++ "\n\n" ++ link ++ "\n\n" ++ hashtags
  else post

/-- the hashtag line of `build_linkedin_post` (lines 269-271). -/
def LINKEDIN_HASHTAGS : String :=
  String.intercalate " " ["#Gold", "#XAU", "#AfricaGoldIntelligence",
    "#GoldInvesting", "#AfricanMarkets"]

/-- `build_linkedin_post` (lines 179-273) given the already-chosen link:
the post-type-specific `body` (pure float-formatted copy, taken as a
parameter) followed by the read-more line with the link and the hashtag
line (line 273). -/
def build_linkedin_post (body : String) (link : String) : String :=
  body ++ "Read the full briefing → " ++ link ++ "\n\n" ++ LINKEDIN_HASHTAGS

/-- the `lines` list of `build_whatsapp_message` (lines 294-314): header and
price line (float-formatted copy, parameters here), the karat-price lines,
then the briefing block whose third line is the link. -/
def whatsappLines (header priceLine : String) (fxLines : List String)
    (link : String) : List String :=
  [header, "", priceLine, ""] ++ fxLines ++
    ["", "📖 Full briefing (free + premium):", link, "",
     "_Reply STOP to unsubscribe_"]

/-- `build_whatsapp_message` (lines 276-316) given the already-chosen link:
the lines joined with newlines. -/
def build_whatsapp_message (header priceLine : String)
    (fxLines : List String) (link : String) : String :=
  String.intercalate "\n" (whatsappLines header priceLine fxLines link)

/-! Shared lemmas. -/

theorem pyStartswith_append_self (p t : String) :
    pyStartswith (p ++ t) p = true := by
  unfold pyStartswith
  rw [show (p ++ t).toList = p.toList ++ t.toList from rfl, List.take_left]
  simp

theorem pyStartswith_append_of_le (a b p : String)
    (h : p.toList.length ≤ a.toList.length) :
    pyStartswith (a ++ b) p = pyStartswith a p := by
  unfold pyStartswith
  rw [show (a ++ b).toList = a.toList ++ b.toList from rfl,
    List.take_append_of_le_length h]

/-- the critical price-band message of `check_data_quality` at price `q`. -/
def criticalPriceMsg (q : ℚ) : String :=
  "CRITICAL" ++ (": Gold price $" ++ toString q ++
    " is outside expected range ($800–$15,000). " ++
    "Possible stale or corrupted data. Halting pipeline.")

theorem critical_msg_mem (data : MarketData)
    (h : ¬(800 ≤ data.gold.price.getD 0 ∧ data.gold.price.getD 0 ≤ 15000)) :
    criticalPriceMsg (data.gold.price.getD 0) ∈ check_data_quality data := by
  simp only [check_data_quality, criticalPriceMsg]
  rw [if_pos h]
  exact List.mem_append_left _ (List.mem_append_left _
    (List.mem_append_left _ (List.mem_singleton.mpr rfl)))

theorem no_critical_of_price_in_band (data : MarketData)
    (h : 800 ≤ data.gold.price.getD 0 ∧ data.gold.price.getD 0 ≤ 15000) :
    (check_data_quality data).filter (fun w => pyStartswith w "CRITICAL") = [] := by
  have h₂ : ∀ x : String,
      pyStartswith ("WARNING: Daily gold move of " ++ x) "CRITICAL" = false :=
    fun x => by rw [pyStartswith_append_of_le _ _ _ (by decide)]; decide
  have h₃ : ∀ x : String,
      pyStartswith ("WARNING: FX rates missing for " ++ x) "CRITICAL" = false :=
    fun x => by rw [pyStartswith_append_of_le _ _ _ (by decide)]; decide
  rw [List.filter_eq_nil_iff]
  intro w hw
  simp only [check_data_quality] at hw
  rw [if_neg (not_not_intro h)] at hw
  simp only [List.nil_append, List.mem_append] at hw
  rcases hw with (hw | hw) | hw
  · revert hw; split
    · intro hw
      rw [List.mem_singleton] at hw
      subst hw
      simp [h₂]
    · intro hw; exact absurd hw (List.not_mem_nil _)
  · revert hw; split
    · intro hw
      rw [List.mem_singleton] at hw
      subst hw
      simp [h₃]
    · intro hw; exact absurd hw (List.not_mem_nil _)
  · revert hw; split
    · intro hw
      rw [List.mem_singleton] at hw
      subst hw
      decide
    · intro hw; exact absurd hw (List.not_mem_nil _)

/-! Claim C1. -/

/-- C1: whenever the snapshot's gold price lies strictly outside the
[800, 15000] band (a missing price defaulting to 0 included),
`check_data_quality` returns at least one finding starting with `CRITICAL`,
and the orchestrator writes exactly one `HALTED` run record and exits with
code 1 before content synthesis (`build_free_content` /
`build_premium_content`) is ever invoked. -/
theorem critical_price_halts_pipeline (env : Env)
    (h : ¬(800 ≤ env.data.gold.price.getD 0 ∧
      env.data.gold.price.getD 0 ≤ 15000)) :
    (∃ w ∈ check_data_quality env.data, pyStartswith w "CRITICAL" = true) ∧
    (pipeline env).records.map LoggedRecord.statusOf = ["HALTED"] ∧
    (pipeline env).contentBuilt = false ∧
    (pipeline env).exitCode = 1 := by
  have hm := critical_msg_mem env.data h
  have hsw : pyStartswith (criticalPriceMsg (env.data.gold.price.getD 0))
      "CRITICAL" = true := by
    unfold criticalPriceMsg; exact pyStartswith_append_self _ _
  have hne : (check_data_quality env.data).filter
      (fun w => pyStartswith w "CRITICAL") ≠ [] :=
    List.ne_nil_of_mem (List.mem_filter.mpr ⟨hm, hsw⟩)
  refine ⟨⟨_, hm, hsw⟩, ?_, ?_, ?_⟩ <;>
    · simp only [pipeline]
      rw [if_pos hne]
      try rfl

/-- a snapshot whose gold price is far above the sanity band, with every
other reading healthy, and an environment where nothing else is
configured. -/
def dataPriceTooHigh : MarketData :=
  { gold := ⟨some 20000, some 1, none⟩,
    fx_rates := [("ZAR", 16), ("GHS", 10), ("NGN", 1344), ("KES", 129)],
    news := ["headline"] }

/-- an otherwise idle run environment around `dataPriceTooHigh`. -/
def envPriceTooHigh : Env :=
  { data := dataPriceTooHigh,
    dryRun := false, autoPublish := false, slug := none,
    apiKeySet := false, apiResult := none, browserResult := .importError,
    notifyPasswordSet := false, smtpOk := false }

/-- C1 witness: the halting behaviour at the concrete out-of-band price
$20,000. -/
theorem critical_price_halts_pipeline_check :
    (∃ w ∈ check_data_quality envPriceTooHigh.data,
      pyStartswith w "CRITICAL" = true) ∧
    (pipeline envPriceTooHigh).records.map LoggedRecord.statusOf =
      ["HALTED"] ∧
    (pipeline envPriceTooHigh).contentBuilt = false ∧
    (pipeline envPriceTooHigh).exitCode = 1 :=
  critical_price_halts_pipeline envPriceTooHigh (by decide)

/-! Claims C4 and C10. -/

/-- C4: on the snapshot price $2,950.00, day change +2.1%, oscillator 72,
editorial type `trader_intelligence` and an empty run history,
`score_opportunity` returns exactly volatility 22, rsi-extreme 12,
post-type `round(95*0.25) = 24`, price-level 8, streak bonus 0, and total
66. -/
theorem trader_intel_scenario_score :
    score_opportunity
      { gold := ⟨some 2950, some (21/10), some 72⟩, fx_rates := [],
        news := [] } "trader_intelligence" [] =
      { volatility := 22, rsi_extreme := 12, post_type := 24,
        ath_proximity := 8, streak_bonus := 0, total := 66 } := by
  have habs : |(21/10 : ℚ)| = 21/10 := abs_of_pos (by norm_num)
  norm_num [score_opportunity, volatilityScore, rsiExtremeScore,
    postTypeScore, postTypeBase, athProximityScore, streakBonusScore,
    get_success_streak, streakScan, pyRound, min_def, habs]

theorem volatilityScore_bounds (pct : ℚ) :
    5 ≤ volatilityScore pct ∧ volatilityScore pct ≤ 30 := by
  unfold volatilityScore
  split_ifs <;> norm_num

theorem rsiExtremeScore_bounds (rsi : Option ℚ) :
    0 ≤ rsiExtremeScore rsi ∧ rsiExtremeScore rsi ≤ 20 := by
  cases rsi with
  | none => simp [rsiExtremeScore]
  | some r =>
      simp only [rsiExtremeScore]
      split_ifs <;> norm_num

theorem postTypeScore_bounds (pt : String) :
    15 ≤ postTypeScore pt ∧ postTypeScore pt ≤ 24 := by
  unfold postTypeScore postTypeBase
  split_ifs <;> · unfold pyRound; norm_num

theorem athProximityScore_bounds (price : ℚ) :
    3 ≤ athProximityScore price ∧ athProximityScore price ≤ 20 := by
  unfold athProximityScore
  split_ifs <;> norm_num

theorem streakBonusScore_bounds (streak : ℕ) :
    0 ≤ streakBonusScore streak ∧ streakBonusScore streak ≤ 5 := by
  unfold streakBonusScore
  split_ifs <;> norm_num

/-- total-score bounds of the non-raising `score_opportunity` fragment:
the component minima sum to 23 = 5 + 0 + 15 + 3 + 0 and `min 100 _` caps
the total. -/
theorem score_opportunity_total_bounds (data : MarketData)
    (post_type : String) (runLog : List RunLine) :
    23 ≤ (score_opportunity data post_type runLog).total ∧
    (score_opportunity data post_type runLog).total ≤ 100 := by
  obtain ⟨v₁, v₂⟩ := volatilityScore_bounds |data.gold.day_chg_pct.getD 0|
  obtain ⟨r₁, r₂⟩ := rsiExtremeScore_bounds data.gold.rsi
  obtain ⟨p₁, p₂⟩ := postTypeScore_bounds post_type
  obtain ⟨a₁, a₂⟩ := athProximityScore_bounds (data.gold.price.getD 0)
  obtain ⟨s₁, s₂⟩ := streakBonusScore_bounds (get_success_streak runLog)
  simp only [score_opportunity]
  constructor
  · rw [le_min_iff]
    constructor
    · norm_num
    · linarith
  · exact min_le_left _ _

theorem pyOrZero_pyGetD0 (f : PyField) :
    pyOrZero (pyGetD0 f) = (pyGet f).getD 0 := by
  cases f <;> rfl

/-- on every gold dict whose `price` key is not a present `None`, the exact
dict model returns normally and agrees with the non-raising fragment. -/
theorem score_opportunityP_eq_ok (g : GoldDict) (post_type : String)
    (runLog : List RunLine) (hp : g.price ≠ PyField.null) :
    score_opportunityP g post_type runLog =
      Except.ok (score_opportunity
        { gold := ⟨pyGetD0 g.price, pyGet g.day_chg_pct, pyGet g.rsi⟩,
          fx_rates := [], news := [] } post_type runLog) := by
  cases hg : g.price with
  | null => exact absurd hg hp
  | absent =>
      cases hd : g.day_chg_pct <;>
        simp [score_opportunityP, score_opportunity, hg, hd, pyGetD0,
          pyGet, pyOrZero]
  | num q =>
      cases hd : g.day_chg_pct <;>
        simp [score_opportunityP, score_opportunity, hg, hd, pyGetD0,
          pyGet, pyOrZero]

/-- C10 counterexample: a gold dict whose `price` key is present as `None`
reaches the `price >= 5000` comparison of the ath-proximity block and
raises `TypeError` — `score_opportunity` does not return for every input
with `None` gold fields. -/
theorem score_none_price_raises_cex :
    score_opportunityP
      { price := PyField.null, day_chg_pct := PyField.num 2,
        rsi := PyField.num 72 } "trader_intelligence" [] =
      Except.error
        "TypeError: unsupported comparison between NoneType and int" := rfl

/-- C10 (amended): for every gold dict whose `price` key is numeric or
absent (a present `None` price raises `TypeError` instead, see the
counterexample; `None` in `day_chg_pct` or `rsi` is handled by the source),
any editorial-type string and any run history, `score_opportunity` returns
a breakdown without raising, and its total is at least 23 (component
minima 5 + 0 + 15 + 3 + 0) and at most 100 (clamped by `min 100 _`). -/
theorem score_opportunity_ok_bounds (g : GoldDict) (post_type : String)
    (runLog : List RunLine) (hp : g.price ≠ PyField.null) :
    ∃ b : ScoreBreakdown,
      score_opportunityP g post_type runLog = Except.ok b ∧
      23 ≤ b.total ∧ b.total ≤ 100 :=
  ⟨_, score_opportunityP_eq_ok g post_type runLog hp,
    (score_opportunity_total_bounds _ _ _).1,
    (score_opportunity_total_bounds _ _ _).2⟩

/-- C10 witness: the amended bounds at a concrete dict with an absent
price and a `None` day change. -/
theorem score_opportunity_ok_bounds_check :
    ∃ b : ScoreBreakdown,
      score_opportunityP
        { price := PyField.absent, day_chg_pct := PyField.null,
          rsi := PyField.num 72 } "aggregator" [] = Except.ok b ∧
      23 ≤ b.total ∧ b.total ≤ 100 :=
  score_opportunity_ok_bounds
    { price := PyField.absent, day_chg_pct := PyField.null,
      rsi := PyField.num 72 } "aggregator" [] (by decide)

/-! Claims C7 and C6. -/

theorem streakScan_map_ok (l : List RunRecord) (acc : ℕ) :
    streakScan (l.map RunLine.ok) acc =
      (l.takeWhile (fun r => r.status == some "SUCCESS")).length + acc := by
  induction l generalizing acc with
  | nil => simp [streakScan]
  | cons r t ih =>
      by_cases h : (r.status == some "SUCCESS") = true
      · simp only [List.map_cons, streakScan, List.takeWhile_cons, h,
          if_true, ih, List.length_cons]
        omega
      · simp [streakScan, List.takeWhile_cons, h]

theorem pipelineStreakGo_eq (l : List RunRecord) (acc : ℕ) :
    pipelineStreakGo l acc =
      (l.takeWhile (fun r => r.status == some "SUCCESS")).length + acc := by
  induction l generalizing acc with
  | nil => simp [pipelineStreakGo]
  | cons r t ih =>
      by_cases h : (r.status == some "SUCCESS") = true
      · simp only [pipelineStreakGo, List.takeWhile_cons, h, if_true, ih,
          List.length_cons]
        omega
      · simp [pipelineStreakGo, List.takeWhile_cons, h]

/-- a run-log record carrying just a status, as used by the concrete streak
scenarios. -/
def mkStatusRecord (s : String) : RunRecord :=
  ⟨0, some s, none, none, none, none⟩

/-- C7: the success streak equals the length of the maximal all-`SUCCESS`
suffix of the parsed history, for both `_get_success_streak` and the
`pipeline_metrics` streak loop; in particular the history
`[S, S, S, F, S]` (oldest to newest) yields a streak of exactly 1. -/
theorem streak_equals_success_suffix :
    (∀ recs : List RunRecord,
      get_success_streak (recs.map RunLine.ok) =
        (recs.reverse.takeWhile (fun r => r.status == some "SUCCESS")).length ∧
      pipelineStreak recs =
        (recs.reverse.takeWhile (fun r => r.status == some "SUCCESS")).length) ∧
    get_success_streak
      ([mkStatusRecord "SUCCESS", mkStatusRecord "SUCCESS",
        mkStatusRecord "SUCCESS", mkStatusRecord "FAILED",
        mkStatusRecord "SUCCESS"].map RunLine.ok) = 1 ∧
    pipelineStreak
      [mkStatusRecord "SUCCESS", mkStatusRecord "SUCCESS",
        mkStatusRecord "SUCCESS", mkStatusRecord "FAILED",
        mkStatusRecord "SUCCESS"] = 1 := by
  refine ⟨fun recs => ⟨?_, ?_⟩, by decide, by decide⟩
  · unfold get_success_streak
    rw [show (recs.map RunLine.ok).reverse = recs.reverse.map RunLine.ok from
      (List.map_reverse _ _).symm, streakScan_map_ok, Nat.add_zero]
  · unfold pipelineStreak
    rw [pipelineStreakGo_eq, Nat.add_zero]

theorem streakScan_success_then_corrupt (l : List RunRecord) (raw : String)
    (rest : List RunLine) (acc : ℕ)
    (h : ∀ r ∈ l, r.status = some "SUCCESS") :
    streakScan (l.map RunLine.ok ++ RunLine.corrupt raw :: rest) acc = 0 := by
  induction l generalizing acc with
  | nil => rfl
  | cons r t ih =>
      have hr : r.status = some "SUCCESS" := h r (List.mem_cons_self r t)
      simp only [List.map_cons, List.cons_append, streakScan]
      rw [if_pos (by simp [hr])]
      exact ih _ (fun x hx => h x (List.mem_cons_of_mem r hx))

theorem streakScan_break_before_rest (l : List RunRecord)
    (rest : List RunLine) (acc : ℕ)
    (h : ∃ r ∈ l, r.status ≠ some "SUCCESS") :
    streakScan (l.map RunLine.ok ++ rest) acc =
      streakScan (l.map RunLine.ok) acc := by
  induction l generalizing acc with
  | nil =>
      rcases h with ⟨r, hr, _⟩
      exact absurd hr (List.not_mem_nil r)
  | cons r t ih =>
      by_cases hr : r.status = some "SUCCESS"
      · have ht : ∃ x ∈ t, x.status ≠ some "SUCCESS" := by
          rcases h with ⟨x, hx, hxs⟩
          rcases List.mem_cons.mp hx with hx' | hx'
          · exact absurd (hx' ▸ hxs) (not_not_intro hr)
          · exact ⟨x, hx', hxs⟩
        simp only [List.map_cons, List.cons_append, streakScan]
        rw [if_pos (by simp [hr]), if_pos (by simp [hr])]
        exact ih _ ht
      · simp only [List.map_cons, List.cons_append, streakScan]
        rw [if_neg (by simp [hr]), if_neg (by simp [hr])]

/-- C6 counterexample: on the two-line history `[corrupt, SUCCESS]` the
streak reader `_get_success_streak` returns 0, while the valid records alone
yield a streak of 1 — so it does not skip the corrupt line and continue. -/
theorem streak_corrupt_line_cex :
    get_success_streak
      [RunLine.corrupt "not json", RunLine.ok (mkStatusRecord "SUCCESS")] =
      0 ∧
    get_success_streak [RunLine.ok (mkStatusRecord "SUCCESS")] = 1 ∧
    (0 : ℕ) ≠ 1 := by decide

/-- C6 (amended): the windowed read (`read_log`) and the recent-log printer
(`print_recent_logs`) skip a corrupt line and keep every valid record; the
streak reader (`_get_success_streak`), however, aborts when its backward
scan reaches the corrupt line: it returns 0 whenever the records after the
corrupt line are all `SUCCESS`, and it sees only the records after the
corrupt line otherwise. -/
theorem corrupt_line_readers (pre suf : List RunLine) (raw : String)
    (now days : ℚ) (recsA recsB : List RunRecord)
    (hA : ∀ r ∈ recsA, r.status = some "SUCCESS")
    (hB : ∃ r ∈ recsB, r.status ≠ some "SUCCESS") :
    read_log (pre ++ RunLine.corrupt raw :: suf) now days =
      read_log (pre ++ suf) now days ∧
    print_recent_logs (pre ++ RunLine.corrupt raw :: suf)
      (pre ++ RunLine.corrupt raw :: suf).length =
      pre.map formatRunLine ++ ("  " ++ raw) :: suf.map formatRunLine ∧
    get_success_streak (pre ++ RunLine.corrupt raw :: recsA.map RunLine.ok)
      = 0 ∧
    get_success_streak (pre ++ RunLine.corrupt raw :: recsB.map RunLine.ok)
      = get_success_streak (recsB.map RunLine.ok) := by
  refine ⟨?_, ?_, ?_, ?_⟩
  · simp [read_log, List.filterMap_append]
  · have hn : (pre ++ RunLine.corrupt raw :: suf).length ≠ 0 := by simp
    simp only [print_recent_logs, if_neg hn, Nat.sub_self, List.drop_zero,
      List.map_append, List.map_cons]
    rfl
  · unfold get_success_streak
    rw [List.reverse_append, List.reverse_cons, List.append_assoc,
      List.singleton_append,
      show (recsA.map RunLine.ok).reverse = recsA.reverse.map RunLine.ok from
        (List.map_reverse _ _).symm]
    exact streakScan_success_then_corrupt _ _ _ _
      (fun r hr => hA r (List.mem_reverse.mp hr))
  · unfold get_success_streak
    rw [List.reverse_append, List.reverse_cons, List.append_assoc,
      List.singleton_append,
      show (recsB.map RunLine.ok).reverse = recsB.reverse.map RunLine.ok from
        (List.map_reverse _ _).symm,
      streakScan_break_before_rest _ _ _
        (by rcases hB with ⟨r, hr, hs⟩
            exact ⟨r, List.mem_reverse.mpr hr, hs⟩)]

/-- C6 witness: the amended behaviour at a concrete two-record history with
one corrupt line. -/
theorem corrupt_line_readers_check :
    read_log ([RunLine.ok (mkStatusRecord "SUCCESS")] ++
        RunLine.corrupt "oops" :: [RunLine.ok (mkStatusRecord "FAILED")])
        100 7 =
      read_log ([RunLine.ok (mkStatusRecord "SUCCESS")] ++
        [RunLine.ok (mkStatusRecord "FAILED")]) 100 7 ∧
    print_recent_logs ([RunLine.ok (mkStatusRecord "SUCCESS")] ++
        RunLine.corrupt "oops" :: [RunLine.ok (mkStatusRecord "FAILED")])
      ([RunLine.ok (mkStatusRecord "SUCCESS")] ++
        RunLine.corrupt "oops" :: [RunLine.ok (mkStatusRecord "FAILED")]).length =
      [RunLine.ok (mkStatusRecord "SUCCESS")].map formatRunLine ++
        ("  " ++ "oops") ::
          [RunLine.ok (mkStatusRecord "FAILED")].map formatRunLine ∧
    get_success_streak ([RunLine.ok (mkStatusRecord "SUCCESS")] ++
      RunLine.corrupt "oops" ::
        [mkStatusRecord "SUCCESS"].map RunLine.ok) = 0 ∧
    get_success_streak ([RunLine.ok (mkStatusRecord "SUCCESS")] ++
      RunLine.corrupt "oops" ::
        [mkStatusRecord "FAILED"].map RunLine.ok) =
      get_success_streak ([mkStatusRecord "FAILED"].map RunLine.ok) :=
  corrupt_line_readers [RunLine.ok (mkStatusRecord "SUCCESS")]
    [RunLine.ok (mkStatusRecord "FAILED")] "oops" 100 7
    [mkStatusRecord "SUCCESS"] [mkStatusRecord "FAILED"]
    (by decide) (by decide)

/-! Claims C3 and C9. -/

/-- an empty market snapshot, used where `select_strategy` ignores its
`data` argument. -/
def mdEmpty : MarketData := ⟨⟨none, none, none⟩, [], []⟩

/-- a run-log record of a `promo` run logged at day 100. -/
def promoRunRecord : RunRecord :=
  { ts := 100, status := some "SUCCESS", post_type := none,
    gold_price := none, elapsed_s := none,
    upsell_strategy := some "promo" }

/-- C3 counterexample: a run-log history whose (only) record is tagged with
the `promo` strategy half a day ago, yet `select_strategy` still returns
`promo` at score 90 when the monetization log is empty — the cooldown is
derived from `monetization_log.jsonl`, which the run log never feeds. -/
theorem promo_cooldown_runlog_cex :
    (∃ rec ∈ [promoRunRecord], rec.upsell_strategy = some "promo" ∧
      pyDays (201/2) rec.ts < PROMO_COOLDOWN_DAYS) ∧
    select_strategy 90 "trader_intelligence" mdEmpty [] (201/2) =
      "promo" := by
  constructor
  · exact ⟨promoRunRecord, by simp, rfl, by norm_num [pyDays, promoRunRecord,
      PROMO_COOLDOWN_DAYS]⟩
  · rfl

/-- C3 (amended): the promo cooldown is derived by scanning backward through
the monetization log (`monetization_log.jsonl`, written by
`log_monetization`), not the run log: whenever the scan finds a most recent
`promo`-tagged monetization record fewer than `PROMO_COOLDOWN_DAYS` (14)
days old, `select_strategy` never returns `promo` regardless of the score,
falling back to `hard_upsell` or lower in the ladder. -/
theorem promo_cooldown_blocks_promo (score : ℤ) (post_type : String)
    (data : MarketData) (log : List MonetRecord) (now : ℚ) (r : MonetRecord)
    (hfind : log.reverse.find? (fun x => x.upsell_type == "promo") = some r)
    (hdays : pyDays now r.ts < PROMO_COOLDOWN_DAYS) :
    select_strategy score post_type data log now ≠ "promo" ∧
    select_strategy score post_type data log now ∈
      ["hard_upsell", "soft_upsell", "value_reminder", "none"] := by
  have hd : days_since_last_upsell "promo" log now = pyDays now r.ts := by
    unfold days_since_last_upsell
    rw [hfind]
  have hnot : ¬(80 ≤ score ∧
      PROMO_COOLDOWN_DAYS ≤ days_since_last_upsell "promo" log now) := by
    rw [hd]
    rintro ⟨-, h⟩
    omega
  simp only [select_strategy]
  rw [if_neg hnot]
  constructor
  · split_ifs <;> decide
  · split_ifs <;> decide

/-- a monetization-log record of a promo sent at day 100. -/
def promoMonetRecord : MonetRecord := ⟨100, "promo"⟩

/-- C3 witness: with the promo logged one day ago, score 95 falls back to
`hard_upsell`. -/
theorem promo_cooldown_blocks_promo_check :
    select_strategy 95 "trader_intelligence" mdEmpty [promoMonetRecord] 101
      ≠ "promo" ∧
    select_strategy 95 "trader_intelligence" mdEmpty [promoMonetRecord] 101
      ∈ ["hard_upsell", "soft_upsell", "value_reminder", "none"] :=
  promo_cooldown_blocks_promo 95 "trader_intelligence" mdEmpty
    [promoMonetRecord] 101 promoMonetRecord rfl
    (by norm_num [pyDays, promoMonetRecord, PROMO_COOLDOWN_DAYS])

/-- C9: for every monetization log produced solely by `log_monetization`
(whose `upsell_type` field is only ever `hard_upsell`, `promo` or `soft`),
the query `_days_since_last_upsell("hard")` matches no record and returns
9999, so the hard-upsell cooldown never suppresses `hard_upsell` in
`select_strategy`: any score of at least 65 that does not take the promo
branch selects `hard_upsell`. -/
theorem hard_upsell_cooldown_inert (entries : List (ℚ × String)) (now : ℚ)
    (log : List MonetRecord)
    (hlog : log = entries.map (fun e => logMonetizationRecord e.1 e.2)) :
    days_since_last_upsell "hard" log now = 9999 ∧
    (∀ (score : ℤ) (post_type : String) (data : MarketData),
      65 ≤ score →
      ¬(80 ≤ score ∧
        PROMO_COOLDOWN_DAYS ≤ days_since_last_upsell "promo" log now) →
      select_strategy score post_type data log now = "hard_upsell") := by
  have hmem : ∀ x ∈ log.reverse, ¬(x.upsell_type == "hard") = true := by
    intro x hx
    rw [List.mem_reverse, hlog] at hx
    rcases List.mem_map.mp hx with ⟨e, -, rfl⟩
    simp only [logMonetizationRecord, logMonetizationUpsellType]
    split_ifs with h
    · rcases h with h | h <;> simp [h]
    · decide
  have hd : days_since_last_upsell "hard" log now = 9999 := by
    unfold days_since_last_upsell
    rw [List.find?_eq_none.mpr hmem]
  refine ⟨hd, fun score post_type data hscore hpromo => ?_⟩
  simp only [select_strategy]
  rw [if_neg hpromo, if_pos ⟨hscore, by
    rw [hd]
    norm_num [HARD_UPSELL_COOLDOWN_DAYS]⟩]

/-- C9 witness: a log holding a promo and a soft record never matches the
`hard` query, and score 70 selects `hard_upsell`. -/
theorem hard_upsell_cooldown_inert_check :
    days_since_last_upsell "hard"
      ([((100 : ℚ), "promo"), ((101 : ℚ), "soft_upsell")].map
        (fun e => logMonetizationRecord e.1 e.2)) 102 = 9999 ∧
    select_strategy 70 "aggregator" mdEmpty
      ([((100 : ℚ), "promo"), ((101 : ℚ), "soft_upsell")].map
        (fun e => logMonetizationRecord e.1 e.2)) 102 = "hard_upsell" := by
  have h := hard_upsell_cooldown_inert
    [((100 : ℚ), "promo"), ((101 : ℚ), "soft_upsell")] 102 _ rfl
  exact ⟨h.1, h.2 70 "aggregator" mdEmpty (by norm_num)
    (by rintro ⟨h80, -⟩; omega)⟩

/-! Claims C5, C2 and C8. -/

theorem string_append_shift (x a b c d : String) :
    x ++ a ++ b ++ c ++ d = x ++ (a ++ b ++ c ++ d) := by
  simp [String.append_assoc]

/-- C5: on every run that reaches distribution (price in band, not a dry
run) where the Beehiiv API key is set and `beehiiv_create_post` succeeds,
`beehiiv_browser.publish_post` is never invoked and the authoritative
recorded result — post id, post URL, `beehiiv_used`, publish type — is the
API channel's. -/
theorem api_success_skips_browser (env : Env) (r : ApiPost)
    (hprice : 800 ≤ env.data.gold.price.getD 0 ∧
      env.data.gold.price.getD 0 ≤ 15000)
    (hdry : env.dryRun = false)
    (hkey : env.apiKeySet = true)
    (hapi : env.apiResult = some r) :
    (pipeline env).browserInvoked = false ∧
    (pipeline env).apiInvoked = true ∧
    (pipeline env).beehiivOk = true ∧
    (pipeline env).post_id = some (r.id.getD "unknown") ∧
    (pipeline env).post_url = r.web_url.getD "" ∧
    (pipeline env).records =
      [.success (pyOrStr (some (r.id.getD "unknown")) "email-delivery")
        (r.web_url.getD "") true (publishTypeOf env.autoPublish)
        (check_data_quality env.data)] := by
  have hcrit := no_critical_of_price_in_band env.data hprice
  simp only [pipeline]
  rw [if_neg (not_not_intro hcrit)]
  simp [hdry, hkey, hapi, publishTypeOf]

/-- a healthy market snapshot: price in band, all FX rates present, news
fetched. -/
def dataClean : MarketData :=
  { gold := ⟨some 2950, some 2, some 72⟩,
    fx_rates := [("ZAR", 16), ("GHS", 10), ("NGN", 1344), ("KES", 129)],
    news := ["headline"] }

/-- an API post result with id and web URL. -/
def apiPostOk : ApiPost := ⟨some "post-123", some "https://example.com/p/x"⟩

/-- a run where both the API and the browser channel would succeed. -/
def envApiSuccess : Env :=
  { data := dataClean, dryRun := false, autoPublish := false,
    slug := some "gold-briefing", apiKeySet := true,
    apiResult := some apiPostOk,
    browserResult := .ok ⟨some "browser-id", some "https://example.com/b"⟩,
    notifyPasswordSet := true, smtpOk := true }

/-- C5 witness: with both channels configured to succeed, the API result is
authoritative and the browser publish is never invoked. -/
theorem api_success_skips_browser_check :
    (pipeline envApiSuccess).browserInvoked = false ∧
    (pipeline envApiSuccess).apiInvoked = true ∧
    (pipeline envApiSuccess).beehiivOk = true ∧
    (pipeline envApiSuccess).post_id = some (apiPostOk.id.getD "unknown") ∧
    (pipeline envApiSuccess).post_url = apiPostOk.web_url.getD "" ∧
    (pipeline envApiSuccess).records =
      [.success (pyOrStr (some (apiPostOk.id.getD "unknown"))
          "email-delivery")
        (apiPostOk.web_url.getD "") true
        (publishTypeOf envApiSuccess.autoPublish)
        (check_data_quality envApiSuccess.data)] :=
  api_success_skips_browser envApiSuccess apiPostOk (by decide) rfl rfl rfl

/-- a run where no distribution channel and no notification can work: no
API key, browser `publish_post` raises, and `NOTIFY_PASSWORD` empty so
`_send_email` returns `False`. -/
def envAllChannelsFail : Env :=
  { data := dataClean, dryRun := false, autoPublish := false, slug := none,
    apiKeySet := false, apiResult := none,
    browserResult := .publishError,
    notifyPasswordSet := false, smtpOk := false }

/-- C2 counterexample: with the API unavailable, the browser publish
failing and the terminal email fallback failing (`_send_email` returns
`False`), the orchestrator still writes a `SUCCESS` record — no `FAILED`
record — and exits 0, contradicting the claimed report-and-halt
semantics. -/
theorem all_channels_fail_cex :
    send_email envAllChannelsFail = false ∧
    (pipeline envAllChannelsFail).beehiivOk = false ∧
    (pipeline envAllChannelsFail).oversightEmailed = false ∧
    (pipeline envAllChannelsFail).records.map LoggedRecord.statusOf =
      ["SUCCESS"] ∧
    "FAILED" ∉ (pipeline envAllChannelsFail).records.map
      LoggedRecord.statusOf ∧
    (pipeline envAllChannelsFail).exitCode = 0 := by decide

/-- C2 (amended): when the API channel is unavailable or fails, the browser
channel fails, and the terminal email fallback also fails, the run is not
treated as a pipeline failure: the orchestrator still writes a single
`SUCCESS` record with post id `email-delivery`, empty post URL,
`beehiiv_used = False` and publish type `email-fallback`, and exits 0; no
`FAILED` record is written and the terminal failure is reported only as a
console message. -/
theorem all_channels_fail_logs_success (env : Env)
    (hprice : 800 ≤ env.data.gold.price.getD 0 ∧
      env.data.gold.price.getD 0 ≤ 15000)
    (hdry : env.dryRun = false)
    (hapi : env.apiKeySet = false ∨ env.apiResult = none)
    (hbr : env.browserResult = .importError ∨
      env.browserResult = .publishError)
    (hemail : send_email env = false) :
    (pipeline env).records =
      [.success "email-delivery" "" false "email-fallback"
        (check_data_quality env.data)] ∧
    (pipeline env).beehiivOk = false ∧
    (pipeline env).oversightEmailed = false ∧
    (pipeline env).exitCode = 0 := by
  have hcrit := no_critical_of_price_in_band env.data hprice
  simp only [pipeline]
  rw [if_neg (not_not_intro hcrit)]
  have hafter :
      (if env.apiKeySet = true then
        match env.apiResult with
        | some r => some (r.id.getD "unknown", r.web_url.getD "")
        | none => none
      else none) = (none : Option (String × String)) := by
    rcases hapi with h | h
    · rw [h]; simp
    · rw [h]; split <;> rfl
  rcases hbr with h | h <;>
    simp [hdry, hafter, h, hemail, pyOrStr]

/-- C2 witness: the amended behaviour at the concrete all-channels-fail
environment. -/
theorem all_channels_fail_logs_success_check :
    (pipeline envAllChannelsFail).records =
      [.success "email-delivery" "" false "email-fallback"
        (check_data_quality envAllChannelsFail.data)] ∧
    (pipeline envAllChannelsFail).beehiivOk = false ∧
    (pipeline envAllChannelsFail).oversightEmailed = false ∧
    (pipeline envAllChannelsFail).exitCode = 0 :=
  all_channels_fail_logs_success envAllChannelsFail (by decide) rfl
    (Or.inl rfl) (Or.inr rfl) rfl

/-- C8: whenever the published-post locator is blank and no slug is
available, the link resolved by `social_agent.run` is the newsletter
homepage, every built social post embeds that link verbatim (the tweet even
across its 280-character trim, the WhatsApp message as one of its lines),
and a browser publish that succeeded without a retrievable URL is still
recorded as a `SUCCESS` with `beehiiv_used` true — never as a failure. -/
theorem blank_locator_uses_homepage (pu : String) (hpu : pyStrip pu = "")
    (hook body header priceLine : String) (post_type : String)
    (fx : List (String × ℚ)) (fxLines : List String)
    (env : Env) (br : BrowserPost)
    (hprice : 800 ≤ env.data.gold.price.getD 0 ∧
      env.data.gold.price.getD 0 ≤ 15000)
    (hdry : env.dryRun = false)
    (hkey : env.apiKeySet = false)
    (hbr : env.browserResult = .ok br)
    (hbru : br.post_url = some "")
    (hslug : env.slug = none) :
    socialRunLink pu none = NEWSLETTER_URL ∧
    (∃ pre : String,
      build_twitter_post hook post_type fx (socialRunLink pu none) =
        pre ++ ("\n\n" ++ NEWSLETTER_URL ++ "\n\n" ++
          twitterHashtags post_type fx)) ∧
    build_linkedin_post body (socialRunLink pu none) =
      body ++ ("Read the full briefing → " ++ NEWSLETTER_URL ++ "\n\n" ++
        LINKEDIN_HASHTAGS) ∧
    NEWSLETTER_URL ∈
      whatsappLines header priceLine fxLines (socialRunLink pu none) ∧
    (pipeline env).records.map LoggedRecord.statusOf = ["SUCCESS"] ∧
    (pipeline env).beehiivOk = true ∧
    (pipeline env).socialLink = NEWSLETTER_URL := by
  have hres : resolvedUrlOf pu = none := by
    unfold resolvedUrlOf
    rw [if_neg]
    rintro ⟨-, h⟩
    exact h hpu
  have hlink : socialRunLink pu none = NEWSLETTER_URL := by
    simp [socialRunLink, hres, socialSlug, buildLink]
  have hcrit := no_critical_of_price_in_band env.data hprice
  refine ⟨hlink, ?_, ?_, ?_, ?_, ?_, ?_⟩
  · rw [hlink]
    simp only [build_twitter_post]
    split_ifs
    · exact ⟨_, string_append_shift _ _ _ _ _⟩
    · exact ⟨_, string_append_shift _ _ _ _ _⟩
  · rw [hlink]
    unfold build_linkedin_post
    exact string_append_shift _ _ _ _ _
  · rw [hlink]
    simp [whatsappLines]
  · simp only [pipeline]
    rw [if_neg (not_not_intro hcrit)]
    simp [hdry, hkey, hbr, LoggedRecord.statusOf]
  · simp only [pipeline]
    rw [if_neg (not_not_intro hcrit)]
    simp [hdry, hkey, hbr]
  · simp only [pipeline]
    rw [if_neg (not_not_intro hcrit)]
    simp [hdry, hkey, hbr, hbru, hslug, socialRunLink, resolvedUrlOf,
      pyStrip, socialSlug, buildLink]

/-- a browser publish result that succeeded without a retrievable URL. -/
def browserNoUrlPost : BrowserPost := ⟨some "browser-post", some ""⟩

/-- a run where only the browser channel works and it returns an empty
post URL. -/
def envBrowserNoUrl : Env :=
  { data := dataClean, dryRun := false, autoPublish := false, slug := none,
    apiKeySet := false, apiResult := none,
    browserResult := .ok browserNoUrlPost,
    notifyPasswordSet := true, smtpOk := true }

/-- C8 witness: the homepage substitution and success recording at a
concrete blank-locator run. -/
theorem blank_locator_uses_homepage_check :
    socialRunLink "" none = NEWSLETTER_URL ∧
    (∃ pre : String,
      build_twitter_post "Gold is on the move today" "trader_intelligence"
          [("ZAR", 16)] (socialRunLink "" none) =
        pre ++ ("\n\n" ++ NEWSLETTER_URL ++ "\n\n" ++
          twitterHashtags "trader_intelligence" [("ZAR", 16)])) ∧
    build_linkedin_post "Gold Market Update\n\n" (socialRunLink "" none) =
      "Gold Market Update\n\n" ++ ("Read the full briefing → " ++
        NEWSLETTER_URL ++ "\n\n" ++ LINKEDIN_HASHTAGS) ∧
    NEWSLETTER_URL ∈
      whatsappLines "*Africa Gold Intelligence*" "Gold: $2,950.00"
        ["ZAR line"] (socialRunLink "" none) ∧
    (pipeline envBrowserNoUrl).records.map LoggedRecord.statusOf =
      ["SUCCESS"] ∧
    (pipeline envBrowserNoUrl).beehiivOk = true ∧
    (pipeline envBrowserNoUrl).socialLink = NEWSLETTER_URL :=
  blank_locator_uses_homepage "" (by decide) "Gold is on the move today"
    "Gold Market Update\n\n" "*Africa Gold Intelligence*" "Gold: $2,950.00"
    "trader_intelligence" [("ZAR", 16)] ["ZAR line"] envBrowserNoUrl
    browserNoUrlPost (by decide) rfl rfl rfl rfl rfl
